import Mathlib

/-!
Verification of the reservation lifecycle and optimistic cache layer of the
book-catalog client.

The data model and operations below are a shallow embedding of the
TypeScript source files `src/pages/my/MyBooksPage.tsx` (status resolver,
relevance comparator, most-relevant-reservation picker) and
`src/features/book/ui/BookDetails.tsx` (availability guards, error
classification, mutation failure handlers).  Timestamps are modelled as
epoch milliseconds (`Nat`); `Option` marks fields that may be absent.
-/

namespace ReservationCore

/-- `status` field of a backend reservation record. -/
inductive ReservationStatus where
  | PENDING_RESERVED
  | COMPLETED
  | CANCELLED
  | EXPIRED
  | RETURNED
  deriving DecidableEq, Repr

/-- `status` field of a book record. -/
inductive BookStatus where
  | AVAILABLE
  | RESERVED
  | TAKEN
  | IN_YOUR_HANDS
  | RETURNED
  deriving DecidableEq, Repr

/-- Derived view-level status (`MyBook["status"]` in `MyBooksPage.tsx`). -/
inductive MyBookStatus where
  | TAKEN
  | RESERVED
  | RETURNED
  | CANCELLED
  deriving DecidableEq, Repr

/-- A backend reservation record; absent timestamps are `none`.
Display-only fields (e.g. `bookTitle`) are not used by the core logic and
are omitted. -/
structure Reservation where
  id : Nat
  bookId : Nat
  status : ReservationStatus
  reservedAt : Option Nat
  takenAt : Option Nat
  returnedAt : Option Nat
  deriving DecidableEq, Repr

/-- `getReservationTimestamp` (MyBooksPage.tsx lines 21-24):
`new Date(returnedAt ?? takenAt ?? reservedAt ?? 0).getTime()`.
The `??` chain takes the first present field, defaulting to epoch 0. -/
def getReservationTimestamp (r : Reservation) : Nat :=
  match r.returnedAt with
  | some t => t
  | none =>
    match r.takenAt with
    | some t => t
    | none =>
      match r.reservedAt with
      | some t => t
      | none => 0

/-- `getMyBookStatus` (MyBooksPage.tsx lines 26-52).  The optional book
status is consulted only by the `COMPLETED`-but-not-in-hand fallback. -/
def getMyBookStatus (r : Reservation) (bookStatus : Option BookStatus) :
    MyBookStatus :=
  let isInHandsByBookStatus :=
    bookStatus == some BookStatus.IN_YOUR_HANDS ||
      bookStatus == some BookStatus.TAKEN
  if r.returnedAt.isSome || r.status == ReservationStatus.RETURNED then
    MyBookStatus.RETURNED
  else if r.status == ReservationStatus.COMPLETED && !isInHandsByBookStatus then
    MyBookStatus.RETURNED
  else if r.takenAt.isSome || r.status == ReservationStatus.COMPLETED then
    MyBookStatus.TAKEN
  else if r.status == ReservationStatus.CANCELLED ||
      r.status == ReservationStatus.EXPIRED then
    MyBookStatus.CANCELLED
  else
    MyBookStatus.RESERVED

/-- The specification's resolver, written rule by rule from §4.1 of the
spec: five rules tried in order, the first matching one fires.  Used only
to compare against `getMyBookStatus`, which is the code's definition. -/
def resolveSpecRules (r : Reservation) (bookStatus : Option BookStatus) :
    MyBookStatus :=
  if r.returnedAt.isSome ∨ r.status = ReservationStatus.RETURNED then
    MyBookStatus.RETURNED
  else if r.status = ReservationStatus.COMPLETED ∧
      ¬(bookStatus = some BookStatus.IN_YOUR_HANDS ∨
        bookStatus = some BookStatus.TAKEN) then
    MyBookStatus.RETURNED
  else if r.takenAt.isSome ∨ r.status = ReservationStatus.COMPLETED then
    MyBookStatus.TAKEN
  else if r.status = ReservationStatus.CANCELLED ∨
      r.status = ReservationStatus.EXPIRED then
    MyBookStatus.CANCELLED
  else
    MyBookStatus.RESERVED

/-- `myBookStatusPriority` (MyBooksPage.tsx lines 54-59). -/
def myBookStatusPriority : MyBookStatus → Nat
  | MyBookStatus.RETURNED => 4
  | MyBookStatus.TAKEN => 3
  | MyBookStatus.RESERVED => 2
  | MyBookStatus.CANCELLED => 1

/-- `pickMoreRelevantReservation` (MyBooksPage.tsx lines 61-87).  Inside
the picker `getMyBookStatus` is called without a book status (the call
sites on lines 76-77 pass only the reservation). -/
def pickMoreRelevantReservation (current next : Reservation) : Reservation :=
  let currentTimestamp := getReservationTimestamp current
  let nextTimestamp := getReservationTimestamp next
  if nextTimestamp > currentTimestamp then
    next
  else if nextTimestamp < currentTimestamp then
    current
  else
    let currentPriority := myBookStatusPriority (getMyBookStatus current none)
    let nextPriority := myBookStatusPriority (getMyBookStatus next none)
    if nextPriority > currentPriority then
      next
    else if nextPriority < currentPriority then
      current
    else if next.id ≥ current.id then next else current

/-- The loop body of `latestReservationByBook` for one bookId key
(MyBooksPage.tsx lines 128-137): store the first reservation of the book
directly, combine later ones with the stored one. -/
def pickStep (acc : Option Reservation) (r : Reservation) :
    Option Reservation :=
  match acc with
  | none => some r
  | some prev => some (pickMoreRelevantReservation prev r)

/-- The per-book projection of the `latestReservationByBook` loop
(MyBooksPage.tsx lines 125-138): for a fixed `bookId`, the map entry starts
absent and evolves by `pickStep` on reservations of that book. -/
def pickCurrentForBook (b : Nat) (rs : List Reservation) :
    Option Reservation :=
  rs.foldl (fun acc r => if r.bookId = b then pickStep acc r else acc) none

/-- `latestReservationByBook.get(bookId)` : lookup on the insertion-order
association list that models the JS `Map`. -/
def lookupBook : List (Nat × Reservation) → Nat → Option Reservation
  | [], _ => none
  | (k, v) :: rest, b => if k = b then some v else lookupBook rest b

/-- `Map.set` on a key that is already present: replace its value in
place, keeping insertion order. -/
def setBook : List (Nat × Reservation) → Nat → Reservation →
    List (Nat × Reservation)
  | [], _, _ => []
  | (k, v) :: rest, b, r =>
    if k = b then (k, r) :: rest else (k, v) :: setBook rest b r

/-- One iteration of the `for (const reservation of reservations)` loop
(MyBooksPage.tsx lines 127-138): the first reservation of a book is stored
directly; a later one is combined with the stored one by
`pickMoreRelevantReservation`. -/
def insertReservation (m : List (Nat × Reservation)) (r : Reservation) :
    List (Nat × Reservation) :=
  match lookupBook m r.bookId with
  | none => m ++ [(r.bookId, r)]
  | some prev => setBook m r.bookId (pickMoreRelevantReservation prev r)

/-- `latestReservationByBook` (MyBooksPage.tsx lines 125-138): the map
built by folding the reservation list through the loop body. -/
def latestReservationByBook (rs : List Reservation) :
    List (Nat × Reservation) :=
  rs.foldl insertReservation []

/-- The key the comparator orders by: computed timestamp, then derived
status priority, then id. -/
def relevanceKey (r : Reservation) : Nat × Nat × Nat :=
  (getReservationTimestamp r,
    myBookStatusPriority (getMyBookStatus r none), r.id)

/-- Lexicographic order on comparator keys. -/
def keyLe (a b : Nat × Nat × Nat) : Prop :=
  a.1 < b.1 ∨
    (a.1 = b.1 ∧
      (a.2.1 < b.2.1 ∨ (a.2.1 = b.2.1 ∧ a.2.2 ≤ b.2.2)))

/-- Folding the comparator from a seed reservation over a list; used to
characterise what the per-book reduction computes. -/
def combinePick (a : Reservation) (l : List Reservation) : Reservation :=
  l.foldl pickMoreRelevantReservation a

/-- `const status = book.status ?? "AVAILABLE"` (BookDetails.tsx line 438):
an absent book status is defaulted to `AVAILABLE` before the guards read it. -/
def effectiveStatus (bookStatus : Option BookStatus) : BookStatus :=
  bookStatus.getD BookStatus.AVAILABLE

/-- `canReserve` (BookDetails.tsx line 448): the (defaulted) book status is
`AVAILABLE` and no current reservation exists. -/
def canReserve (status : BookStatus) (reservation : Option Reservation) :
    Bool :=
  status == BookStatus.AVAILABLE && reservation.isNone

/-- `canTake` (BookDetails.tsx line 449):
`Boolean(reservation && !reservation.takenAt)`. -/
def canTake (reservation : Option Reservation) : Bool :=
  match reservation with
  | none => false
  | some r => r.takenAt.isNone

/-- `canReturn` (BookDetails.tsx lines 450-452):
`Boolean(reservation && reservation.takenAt && !reservation.returnedAt)`. -/
def canReturn (reservation : Option Reservation) : Bool :=
  match reservation with
  | none => false
  | some r => r.takenAt.isSome && r.returnedAt.isNone

/-- `canCancel` (BookDetails.tsx line 453):
`Boolean(reservation && !reservation.takenAt)`. -/
def canCancel (reservation : Option Reservation) : Bool :=
  match reservation with
  | none => false
  | some r => r.takenAt.isNone

/-- `needle` is a prefix of `hay`, character by character. -/
def charsStartWith : List Char → List Char → Bool
  | [], _ => true
  | _ :: _, [] => false
  | a :: as, b :: bs => a == b && charsStartWith as bs

/-- `needle` occurs as a contiguous substring of `hay`
(JavaScript `String.prototype.includes`). -/
def charsContain (needle : List Char) : List Char → Bool
  | [] => charsStartWith needle []
  | c :: rest => charsStartWith needle (c :: rest) || charsContain needle rest

/-- `hay.includes(needle)` on strings. -/
def stringContains (hay needle : String) : Bool :=
  charsContain needle.toList hay.toList

/-- ASCII lowering of one character. -/
def lowerChar (c : Char) : Char :=
  if 'A' ≤ c ∧ c ≤ 'Z' then Char.ofNat (c.toNat + 32) else c

/-- Model of `toLocaleLowerCase("en-US")`; the markers and the messages the
classifier compares are ASCII, where locale-aware lowering agrees with
per-character ASCII lowering. -/
def toLowerString (s : String) : String :=
  String.mk (s.data.map lowerChar)

/-- The pieces of a failed mutation's transport error that the classifier
reads (BookDetails.tsx lines 268-282): the HTTP status, if any, and the raw
message extracted from `response.data` (the string itself, or its
`message`/`error` field, or `""`). -/
structure ReservationError where
  status : Option Nat
  rawMessage : String
  deriving DecidableEq, Repr

/-- The user-visible message chosen for a failed mutation.  `limitReached`,
`notAvailable` and `generic` stand for the three translated messages
`reservation.errors.limitReached` / `.notAvailable` / `.generic`;
`verbatim` carries a server message surfaced unchanged. -/
inductive SurfacedMessage where
  | limitReached
  | notAvailable
  | verbatim (message : String)
  | generic
  deriving DecidableEq, Repr

/-- `resolveReservationErrorMessage` (BookDetails.tsx lines 267-300).
The message is lowercased before the marker check; note the code accepts
either the full `"maximum number of reserved books"` marker or the shorter
`"maximum number"`. -/
def resolveReservationErrorMessage (e : ReservationError) : SurfacedMessage :=
  let normalized := toLowerString e.rawMessage
  if stringContains normalized "maximum number of reserved books" ||
      stringContains normalized "maximum number" then
    SurfacedMessage.limitReached
  else if e.status == some 409 then
    SurfacedMessage.notAvailable
  else if e.status == some 400 && e.rawMessage != "" then
    SurfacedMessage.verbatim e.rawMessage
  else
    SurfacedMessage.generic

/-- The claim's classification, written rule by rule from its words: the
marker is exactly "maximum number of reserved books", then 409, then 400
with a non-empty message, else generic. -/
def claimClassify (e : ReservationError) : SurfacedMessage :=
  if stringContains (toLowerString e.rawMessage) "maximum number of reserved books" =
      true then
    SurfacedMessage.limitReached
  else if e.status = some 409 then
    SurfacedMessage.notAvailable
  else if e.status = some 400 ∧ e.rawMessage ≠ "" then
    SurfacedMessage.verbatim e.rawMessage
  else
    SurfacedMessage.generic

/-- The amended claim's classification: as `claimClassify`, but the
limit-marker test also fires on the shorter substring "maximum number",
matching the code. -/
def claimClassifyAmended (e : ReservationError) : SurfacedMessage :=
  if stringContains (toLowerString e.rawMessage) "maximum number of reserved books" =
        true ∨
      stringContains (toLowerString e.rawMessage) "maximum number" = true then
    SurfacedMessage.limitReached
  else if e.status = some 409 then
    SurfacedMessage.notAvailable
  else if e.status = some 400 ∧ e.rawMessage ≠ "" then
    SurfacedMessage.verbatim e.rawMessage
  else
    SurfacedMessage.generic

/-- Rollback context captured by the optimistic pre-mutation hook:
`{previous: n}`. -/
structure CounterContext where
  previous : Nat
  deriving DecidableEq, Repr

/-- The local client state a reservation mutation can touch: the cached
unread notification count, the cached current reservation and book status
(from which the guards are derived), and the displayed error message. -/
structure LocalState where
  unread : Nat
  activeReservation : Option Reservation
  bookStatus : Option BookStatus
  reservationError : Option SurfacedMessage
  deriving DecidableEq, Repr

/-- Modelled from the spec: `optimisticIncrementUnread`
(`entities/notification/model/optimisticUnread`, not under src).  Per §4.4,
the pre-mutation hook reads the cached count `n`, speculatively sets the
cache to `n + 1`, and returns `{previous: n}` as rollback context. -/
def optimisticIncrementUnread (s : LocalState) : LocalState × CounterContext :=
  ({ s with unread := s.unread + 1 }, { previous := s.unread })

/-- Modelled from the spec: `rollbackOptimisticUnread`
(`entities/notification/model/optimisticUnread`, not under src).  Per §4.4,
rollback sets the cached count back to `context.previous` and touches
nothing else. -/
def rollbackOptimisticUnread (ctx : CounterContext) (s : LocalState) :
    LocalState :=
  { s with unread := ctx.previous }

/-- Modelled from the spec: `syncUnreadNotifications`
(`entities/notification/model/optimisticUnread`, not under src).  Per §4.4,
resync re-reads the authoritative count and overwrites the cache
unconditionally. -/
def syncUnreadNotifications (serverCount : Nat) (s : LocalState) :
    LocalState :=
  { s with unread := serverCount }

/-- The `onError` handler shared verbatim by the four reservation mutations
(BookDetails.tsx lines 317-320, 333-336, 349-352, 365-368): roll back the
optimistic unread counter with the captured context, then surface the
classified error message. -/
def onErrorReservation (e : ReservationError) (ctx : CounterContext)
    (s : LocalState) : LocalState :=
  let rolledBack := rollbackOptimisticUnread ctx s
  { rolledBack with
      reservationError := some (resolveReservationErrorMessage e) }

/-- The `onSettled` handler shared by the four reservation mutations
(BookDetails.tsx lines 321-323 etc.): await the counter resync. -/
def onSettledReservation (serverCount : Nat) (s : LocalState) : LocalState :=
  syncUnreadNotifications serverCount s

/-- A failed mutation's trace: `onMutate` captures the rollback context and
optimistically increments; the call fails (the server count is unchanged);
`onError` runs with the captured context; `onSettled` runs afterwards
(React Query invokes `onError` before `onSettled`). -/
def failedMutationRun (e : ReservationError) (serverCount : Nat)
    (s : LocalState) : LocalState :=
  let stepped := optimisticIncrementUnread s
  let afterRollback := onErrorReservation e stepped.2 stepped.1
  onSettledReservation serverCount afterRollback

/-- Counter operations of one mutation, in the order the protocol runs
them. -/
inductive CounterEvent where
  | optimisticIncrement
  | rollback
  | resync
  deriving DecidableEq, BEq, Repr

/-- Event order of a failed mutation: increment at `onMutate`, rollback at
`onError`, resync at `onSettled`. -/
def failedMutationEvents : List CounterEvent :=
  [CounterEvent.optimisticIncrement, CounterEvent.rollback,
    CounterEvent.resync]

end ReservationCore

namespace ReservationCore

theorem keyLe_refl (a : Nat × Nat × Nat) : keyLe a a := by
  unfold keyLe
  omega

theorem keyLe_total (a b : Nat × Nat × Nat) : keyLe a b ∨ keyLe b a := by
  unfold keyLe
  omega

theorem keyLe_trans {a b c : Nat × Nat × Nat}
    (h1 : keyLe a b) (h2 : keyLe b c) : keyLe a c := by
  unfold keyLe at h1 h2 ⊢
  omega

theorem keyLe_antisymm {a b : Nat × Nat × Nat}
    (h1 : keyLe a b) (h2 : keyLe b a) : a = b := by
  obtain ⟨a1, a2, a3⟩ := a
  obtain ⟨b1, b2, b3⟩ := b
  unfold keyLe at h1 h2
  dsimp only at h1 h2
  have h : a1 = b1 ∧ a2 = b2 ∧ a3 = b3 := by omega
  simp [h.1, h.2.1, h.2.2]

theorem pick_eq_of_keyLe {c n : Reservation}
    (h : keyLe (relevanceKey c) (relevanceKey n)) :
    pickMoreRelevantReservation c n = n := by
  unfold keyLe relevanceKey at h
  dsimp only at h
  simp only [pickMoreRelevantReservation]
  split_ifs <;> first | rfl | omega

theorem pick_eq_of_not_keyLe {c n : Reservation}
    (h : ¬ keyLe (relevanceKey c) (relevanceKey n)) :
    pickMoreRelevantReservation c n = c := by
  unfold keyLe relevanceKey at h
  dsimp only at h
  simp only [pickMoreRelevantReservation]
  split_ifs <;> first | rfl | omega

theorem pick_mem (c n : Reservation) :
    pickMoreRelevantReservation c n = c ∨ pickMoreRelevantReservation c n = n := by
  by_cases h : keyLe (relevanceKey c) (relevanceKey n)
  · exact Or.inr (pick_eq_of_keyLe h)
  · exact Or.inl (pick_eq_of_not_keyLe h)

theorem pick_keyLe_left (c n : Reservation) :
    keyLe (relevanceKey c) (relevanceKey (pickMoreRelevantReservation c n)) := by
  by_cases h : keyLe (relevanceKey c) (relevanceKey n)
  · rw [pick_eq_of_keyLe h]; exact h
  · rw [pick_eq_of_not_keyLe h]; exact keyLe_refl _

theorem pick_keyLe_right (c n : Reservation) :
    keyLe (relevanceKey n) (relevanceKey (pickMoreRelevantReservation c n)) := by
  by_cases h : keyLe (relevanceKey c) (relevanceKey n)
  · rw [pick_eq_of_keyLe h]; exact keyLe_refl _
  · rw [pick_eq_of_not_keyLe h]
    rcases keyLe_total (relevanceKey n) (relevanceKey c) with h2 | h2
    · exact h2
    · exact absurd h2 h

theorem combinePick_cons (a x : Reservation) (l : List Reservation) :
    combinePick a (x :: l) = combinePick (pickMoreRelevantReservation a x) l :=
  rfl

theorem combinePick_mem (a : Reservation) (l : List Reservation) :
    combinePick a l ∈ a :: l := by
  induction l generalizing a with
  | nil => simp [combinePick]
  | cons x l ih =>
    rw [combinePick_cons]
    have h := ih (pickMoreRelevantReservation a x)
    rcases List.mem_cons.mp h with h1 | h1
    · rcases pick_mem a x with hp | hp <;> rw [h1, hp] <;> simp
    · simp [List.mem_cons, h1]

theorem combinePick_isMax (a : Reservation) (l : List Reservation) :
    ∀ r ∈ a :: l,
      keyLe (relevanceKey r) (relevanceKey (combinePick a l)) := by
  induction l generalizing a with
  | nil =>
    intro r hr
    rw [List.mem_singleton.mp hr]
    exact keyLe_refl _
  | cons x l ih =>
    intro r hr
    rw [combinePick_cons]
    have hhead :=
      ih (pickMoreRelevantReservation a x) (pickMoreRelevantReservation a x)
        (List.mem_cons_self _ _)
    rcases List.mem_cons.mp hr with h1 | h1
    · rw [h1]
      exact keyLe_trans (pick_keyLe_left a x) hhead
    · rcases List.mem_cons.mp h1 with h2 | h2
      · rw [h2]
        exact keyLe_trans (pick_keyLe_right a x) hhead
      · exact ih (pickMoreRelevantReservation a x) r
          (List.mem_cons_of_mem _ h2)

theorem foldl_pickStep_some (l : List Reservation) :
    ∀ a : Reservation, l.foldl pickStep (some a) = some (combinePick a l) := by
  induction l with
  | nil => intro a; rfl
  | cons x l ih =>
    intro a
    rw [List.foldl_cons]
    exact ih (pickMoreRelevantReservation a x)

theorem lookupBook_append_single (m : List (Nat × Reservation)) (k : Nat)
    (v : Reservation) (b : Nat) :
    lookupBook (m ++ [(k, v)]) b =
      match lookupBook m b with
      | some w => some w
      | none => if k = b then some v else none := by
  induction m with
  | nil => simp [lookupBook]
  | cons p m ih =>
    obtain ⟨k', v'⟩ := p
    by_cases h : k' = b <;> simp [lookupBook, h, ih]

theorem lookupBook_setBook (m : List (Nat × Reservation)) (k : Nat)
    (v : Reservation) (b : Nat) :
    lookupBook (setBook m k v) b =
      if k = b then
        match lookupBook m k with
        | some _ => some v
        | none => none
      else lookupBook m b := by
  induction m with
  | nil => simp [lookupBook, setBook]
  | cons p m ih =>
    obtain ⟨k', v'⟩ := p
    by_cases hk : k' = k
    · subst hk
      by_cases hb : k' = b <;> simp [lookupBook, setBook, hb]
    · by_cases hb : k' = b
      · subst hb
        have hk2 : ¬k = k' := fun h => hk h.symm
        simp [lookupBook, setBook, hk, hk2]
      · simp [lookupBook, setBook, hk, hb, ih]

theorem lookupBook_insert (m : List (Nat × Reservation)) (r : Reservation)
    (b : Nat) :
    lookupBook (insertReservation m r) b =
      if r.bookId = b then pickStep (lookupBook m b) r
      else lookupBook m b := by
  unfold insertReservation
  rcases h : lookupBook m r.bookId with _ | prev
  · rw [lookupBook_append_single]
    by_cases hb : r.bookId = b
    · subst hb
      simp [h, pickStep]
    · rcases hmb : lookupBook m b with _ | w <;> simp [hb, hmb]
  · rw [lookupBook_setBook]
    by_cases hb : r.bookId = b
    · subst hb
      simp [h, pickStep]
    · simp [hb]

theorem lookupBook_fold (b : Nat) (rs : List Reservation) :
    ∀ m : List (Nat × Reservation),
      lookupBook (rs.foldl insertReservation m) b =
        rs.foldl (fun acc r => if r.bookId = b then pickStep acc r else acc)
          (lookupBook m b) := by
  induction rs with
  | nil => intro m; rfl
  | cons r rs ih =>
    intro m
    rw [List.foldl_cons, List.foldl_cons, ih, lookupBook_insert]

theorem lookup_latest_eq_pickCurrent (b : Nat) (rs : List Reservation) :
    lookupBook (latestReservationByBook rs) b = pickCurrentForBook b rs := by
  unfold latestReservationByBook pickCurrentForBook
  rw [lookupBook_fold]
  rfl

theorem pickCurrentFold_filter (b : Nat) (rs : List Reservation) :
    ∀ acc : Option Reservation,
      rs.foldl (fun acc r => if r.bookId = b then pickStep acc r else acc)
          acc =
        (rs.filter (fun r => r.bookId == b)).foldl pickStep acc := by
  induction rs with
  | nil => intro acc; rfl
  | cons r rs ih =>
    intro acc
    by_cases h : r.bookId = b <;>
      simp [List.foldl_cons, List.filter_cons, h, ih]

end ReservationCore

namespace ReservationCore

/-- C1: the resolver is a total function (it is a Lean `def`, hence total
and deterministic) and agrees everywhere with the five-rule precedence
stated in the spec. -/
theorem getMyBookStatus_follows_spec_precedence
    (r : Reservation) (bookStatus : Option BookStatus) :
    getMyBookStatus r bookStatus = resolveSpecRules r bookStatus := by
  rcases r with ⟨id, bookId, status, reservedAt, takenAt, returnedAt⟩
  rcases status <;> rcases returnedAt <;> rcases takenAt <;>
    rcases bookStatus with _ | b <;>
      first
        | rfl
        | (rcases b <;> rfl)

/-- C4 counterexample: on a conflict (409) response whose message is
"maximum number exceeded" — which does not contain the claim's marker
"maximum number of reserved books" — the claim's precedence surfaces the
"book no longer available" message, but the code surfaces the
reservation-limit message, because the code's marker test also accepts the
shorter substring "maximum number". -/
theorem errorClassification_counterexample :
    resolveReservationErrorMessage
        { status := some 409, rawMessage := "maximum number exceeded" } =
      SurfacedMessage.limitReached ∧
    claimClassify
        { status := some 409, rawMessage := "maximum number exceeded" } =
      SurfacedMessage.notAvailable ∧
    SurfacedMessage.limitReached ≠ SurfacedMessage.notAvailable := by
  refine ⟨by decide, by decide, by decide⟩

/-- C4 (amended): classification follows the fixed precedence
limit-marker → 409 conflict → 400 with non-empty message → generic, where
the limit-marker test fires when the lowercased server message contains
"maximum number of reserved books" or the shorter "maximum number". -/
theorem errorClassification_follows_amended_precedence
    (e : ReservationError) :
    resolveReservationErrorMessage e = claimClassifyAmended e := by
  unfold resolveReservationErrorMessage claimClassifyAmended
  by_cases h1 :
      stringContains (toLowerString e.rawMessage) "maximum number of reserved books" =
        true
  · simp [h1]
  · by_cases h2 : stringContains (toLowerString e.rawMessage) "maximum number" = true
    · simp [h1, h2]
    · by_cases h3 : e.status = some 409
      · simp [h1, h2, h3]
      · by_cases h4 : e.status = some 400
        · by_cases h5 : e.rawMessage = ""
          · simp [h1, h2, h3, h4, h5]
          · simp [h1, h2, h3, h4, h5]
        · simp [h1, h2, h3, h4]

/-- C5: at most one of `canReserve`/`canTake`/`canReturn` holds at a time,
and each guard is characterised exactly as the claim states it
(`canReserve` reads the status already defaulted by line 438). -/
theorem guards_mutually_exclusive
    (status : BookStatus) (reservation : Option Reservation) :
    (¬(canReserve status reservation = true ∧ canTake reservation = true) ∧
      ¬(canReserve status reservation = true ∧
        canReturn reservation = true) ∧
      ¬(canTake reservation = true ∧ canReturn reservation = true)) ∧
    (canReserve status reservation = true ↔
      status = BookStatus.AVAILABLE ∧ reservation = none) ∧
    (canTake reservation = true ↔
      ∃ r, reservation = some r ∧ r.takenAt = none) ∧
    (canReturn reservation = true ↔
      ∃ r, reservation = some r ∧ r.takenAt.isSome ∧ r.returnedAt = none) := by
  rcases reservation with _ | r
  · simp [canReserve, canTake, canReturn]
  · rcases hT : r.takenAt with _ | t <;> rcases hR : r.returnedAt with _ | u <;>
      simp [canReserve, canTake, canReturn, hT, hR]

/-- C5 witness: Scenario A — a pending reservation with only `reservedAt`
set makes `canTake` true, and reserve-availability and take-availability
are not simultaneously true there. -/
theorem guards_mutually_exclusive_witness :
    canTake
        (some
          { id := 1, bookId := 1,
            status := ReservationStatus.PENDING_RESERVED,
            reservedAt := some 5, takenAt := none, returnedAt := none }) =
      true ∧
    ¬(canReserve BookStatus.AVAILABLE
          (some
            { id := 1, bookId := 1,
              status := ReservationStatus.PENDING_RESERVED,
              reservedAt := some 5, takenAt := none,
              returnedAt := none }) =
        true ∧
      canTake
          (some
            { id := 1, bookId := 1,
              status := ReservationStatus.PENDING_RESERVED,
              reservedAt := some 5, takenAt := none,
              returnedAt := none }) =
        true) :=
  ⟨by decide,
    ((guards_mutually_exclusive BookStatus.AVAILABLE
        (some
          { id := 1, bookId := 1,
            status := ReservationStatus.PENDING_RESERVED,
            reservedAt := some 5, takenAt := none,
            returnedAt := none })).1).1⟩

/-- C6: when two reservations of the same book tie on computed timestamp
and on derived status, the picker selects the one with the larger id, in
either argument order. -/
theorem pick_tie_breaks_on_larger_id
    (current next : Reservation)
    (_hbook : current.bookId = next.bookId)
    (hts : getReservationTimestamp current = getReservationTimestamp next)
    (hst : getMyBookStatus current none = getMyBookStatus next none) :
    (current.id < next.id →
      pickMoreRelevantReservation current next = next ∧
      pickMoreRelevantReservation next current = next) ∧
    (next.id < current.id →
      pickMoreRelevantReservation current next = current ∧
      pickMoreRelevantReservation next current = current) := by
  unfold pickMoreRelevantReservation
  rw [hts, hst]
  constructor
  · intro hid
    constructor <;> · simp only []; split_ifs <;> first | rfl | omega
  · intro hid
    constructor <;> · simp only []; split_ifs <;> first | rfl | omega

/-- C6 witness: two concrete tied reservations of book 7 with ids 3 and 8;
the picker selects id 8. -/
theorem pick_tie_breaks_on_larger_id_witness :
    pickMoreRelevantReservation
        { id := 3, bookId := 7, status := ReservationStatus.PENDING_RESERVED,
          reservedAt := some 100, takenAt := none, returnedAt := none }
        { id := 8, bookId := 7, status := ReservationStatus.PENDING_RESERVED,
          reservedAt := some 100, takenAt := none, returnedAt := none } =
      { id := 8, bookId := 7, status := ReservationStatus.PENDING_RESERVED,
        reservedAt := some 100, takenAt := none, returnedAt := none } :=
  ((pick_tie_breaks_on_larger_id
      { id := 3, bookId := 7, status := ReservationStatus.PENDING_RESERVED,
        reservedAt := some 100, takenAt := none, returnedAt := none }
      { id := 8, bookId := 7, status := ReservationStatus.PENDING_RESERVED,
        reservedAt := some 100, takenAt := none, returnedAt := none }
      rfl rfl rfl).1 (by decide)).1

/-- C7: a reservation's relevance timestamp is `returnedAt` if set, else
`takenAt` if set, else `reservedAt` if set, else 0; and between two
reservations with different timestamps the comparator selects the one with
the larger timestamp. -/
theorem timestamp_formula_and_larger_timestamp_wins
    (current next : Reservation) :
    (getReservationTimestamp current =
      current.returnedAt.getD
        (current.takenAt.getD (current.reservedAt.getD 0))) ∧
    (getReservationTimestamp current < getReservationTimestamp next →
      pickMoreRelevantReservation current next = next ∧
      pickMoreRelevantReservation next current = next) := by
  constructor
  · rcases current with ⟨_, _, _, rAt, tAt, retAt⟩
    rcases retAt <;> rcases tAt <;> rcases rAt <;> rfl
  · intro hlt
    unfold pickMoreRelevantReservation
    constructor <;> · simp only []; split_ifs <;> first | rfl | omega

/-- C7 witness: a concrete pair with timestamps 50 < 100; the comparator
selects the reservation stamped 100, and its timestamp comes from
`takenAt`. -/
theorem timestamp_formula_and_larger_timestamp_wins_witness :
    getReservationTimestamp
        { id := 1, bookId := 5, status := ReservationStatus.PENDING_RESERVED,
          reservedAt := some 40, takenAt := some 50, returnedAt := none } =
      50 ∧
    pickMoreRelevantReservation
        { id := 1, bookId := 5, status := ReservationStatus.PENDING_RESERVED,
          reservedAt := some 40, takenAt := some 50, returnedAt := none }
        { id := 2, bookId := 5, status := ReservationStatus.PENDING_RESERVED,
          reservedAt := none, takenAt := none, returnedAt := some 100 } =
      { id := 2, bookId := 5, status := ReservationStatus.PENDING_RESERVED,
        reservedAt := none, takenAt := none, returnedAt := some 100 } := by
  have h := timestamp_formula_and_larger_timestamp_wins
    { id := 1, bookId := 5, status := ReservationStatus.PENDING_RESERVED,
      reservedAt := some 40, takenAt := some 50, returnedAt := none }
    { id := 2, bookId := 5, status := ReservationStatus.PENDING_RESERVED,
      reservedAt := none, takenAt := none, returnedAt := some 100 }
  exact ⟨h.1, (h.2 (by decide)).1⟩

/-- C9: `canCancel` and `canTake` are literally the same predicate: each
holds exactly when a reservation exists with `takenAt` unset. -/
theorem canCancel_eq_canTake (reservation : Option Reservation) :
    canCancel reservation = canTake reservation := by
  rcases reservation with _ | r <;> rfl

/-- C10: an absent book status is defaulted to `AVAILABLE`, so with no
current reservation and a missing status, `canReserve` is true. -/
theorem missing_bookStatus_defaults_to_available :
    effectiveStatus none = BookStatus.AVAILABLE ∧
    canReserve (effectiveStatus none) none = true := by
  exact ⟨rfl, rfl⟩

/-- C3: for a failed mutation, the rollback runs before the resync (the
protocol's event order is increment, rollback, resync), the rollback alone
already restores the pre-mutation cached count, and once rollback and
resync have both completed the cached count equals the pre-mutation value.
The mutation failed, so the authoritative server count is unchanged and the
pre-mutation cache matched it. -/
theorem failed_mutation_counter_converges
    (e : ReservationError) (serverCount : Nat) (s : LocalState)
    (hsync : s.unread = serverCount) :
    (onErrorReservation e (optimisticIncrementUnread s).2
        (optimisticIncrementUnread s).1).unread = s.unread ∧
    (failedMutationRun e serverCount s).unread = s.unread ∧
    failedMutationEvents.indexOf CounterEvent.rollback <
      failedMutationEvents.indexOf CounterEvent.resync := by
  refine ⟨rfl, ?_, by decide⟩
  simp [failedMutationRun, onSettledReservation, syncUnreadNotifications,
    hsync]

/-- C3 witness: Scenario E — the cache and the server both read 2; the
reserve call fails with a conflict; after rollback and resync the cached
count is 2 again. -/
theorem failed_mutation_counter_converges_witness :
    (failedMutationRun { status := some 409, rawMessage := "" } 2
        { unread := 2, activeReservation := none, bookStatus := none,
          reservationError := none }).unread = 2 :=
  (failed_mutation_counter_converges
      { status := some 409, rawMessage := "" } 2
      { unread := 2, activeReservation := none, bookStatus := none,
        reservationError := none } rfl).2.1

/-- C8: the shared `onError` handler of the four reservation mutations
changes only the unread counter (rolled back to the captured previous
value) and the surfaced error message; the cached reservation, the cached
book status, and every guard derived from them are left unchanged. -/
theorem onError_preserves_reservation_state
    (e : ReservationError) (ctx : CounterContext) (s : LocalState) :
    (onErrorReservation e ctx s).activeReservation = s.activeReservation ∧
    (onErrorReservation e ctx s).bookStatus = s.bookStatus ∧
    canReserve (effectiveStatus (onErrorReservation e ctx s).bookStatus)
        (onErrorReservation e ctx s).activeReservation =
      canReserve (effectiveStatus s.bookStatus) s.activeReservation ∧
    canTake (onErrorReservation e ctx s).activeReservation =
      canTake s.activeReservation ∧
    canReturn (onErrorReservation e ctx s).activeReservation =
      canReturn s.activeReservation ∧
    canCancel (onErrorReservation e ctx s).activeReservation =
      canCancel s.activeReservation ∧
    (onErrorReservation e ctx s).unread = ctx.previous ∧
    (onErrorReservation e ctx s).reservationError =
      some (resolveReservationErrorMessage e) :=
  ⟨rfl, rfl, rfl, rfl, rfl, rfl, rfl, rfl⟩

/-- C2 counterexample: order independence fails when two distinct
reservations of the same book share an id.  Here both reservations of book
7 have id 1, computed timestamp 100 (from `takenAt`) and derived status
TAKEN, but differ in `reservedAt`; the final id tie-break `next.id >=
current.id` keeps whichever arrived last, so the two permutations of the
list select different reservations. -/
theorem latest_reservation_not_perm_invariant :
    ([({ id := 1, bookId := 7, status := ReservationStatus.PENDING_RESERVED,
          reservedAt := none, takenAt := some 100, returnedAt := none } :
          Reservation),
        { id := 1, bookId := 7, status := ReservationStatus.PENDING_RESERVED,
          reservedAt := some 50, takenAt := some 100,
          returnedAt := none }].Perm
      [{ id := 1, bookId := 7, status := ReservationStatus.PENDING_RESERVED,
          reservedAt := some 50, takenAt := some 100, returnedAt := none },
        { id := 1, bookId := 7, status := ReservationStatus.PENDING_RESERVED,
          reservedAt := none, takenAt := some 100, returnedAt := none }]) ∧
    lookupBook
        (latestReservationByBook
          [{ id := 1, bookId := 7,
              status := ReservationStatus.PENDING_RESERVED,
              reservedAt := none, takenAt := some 100, returnedAt := none },
            { id := 1, bookId := 7,
              status := ReservationStatus.PENDING_RESERVED,
              reservedAt := some 50, takenAt := some 100,
              returnedAt := none }]) 7 ≠
      lookupBook
        (latestReservationByBook
          [{ id := 1, bookId := 7,
              status := ReservationStatus.PENDING_RESERVED,
              reservedAt := some 50, takenAt := some 100,
              returnedAt := none },
            { id := 1, bookId := 7,
              status := ReservationStatus.PENDING_RESERVED,
              reservedAt := none, takenAt := some 100,
              returnedAt := none }]) 7 := by
  exact ⟨by decide, by decide⟩

/-- C2 (amended): order independence of the picker holds for every
reservation list in which no two distinct reservations of the same book
share an id: for any permutation of the list, the map built by the loop
selects the same reservation for each bookId. -/
theorem latest_reservation_perm_invariant
    (b : Nat) (rs rs2 : List Reservation)
    (hperm : rs.Perm rs2)
    (hids : ∀ r ∈ rs, ∀ r2 ∈ rs, r.bookId = b → r2.bookId = b →
        r.id = r2.id → r = r2) :
    lookupBook (latestReservationByBook rs) b =
      lookupBook (latestReservationByBook rs2) b := by
  rw [lookup_latest_eq_pickCurrent, lookup_latest_eq_pickCurrent]
  unfold pickCurrentForBook
  rw [pickCurrentFold_filter, pickCurrentFold_filter]
  have hpf := hperm.filter (fun r => r.bookId == b)
  rcases hl : rs.filter (fun r => r.bookId == b) with _ | ⟨x, xs⟩
  · rw [hl] at hpf
    rw [hl, hpf.symm.eq_nil]
  · rcases hl2 : rs2.filter (fun r => r.bookId == b) with _ | ⟨y, ys⟩
    · rw [hl, hl2] at hpf
      exact absurd hpf.eq_nil (by simp)
    · rw [hl, hl2] at hpf
      rw [hl, hl2, List.foldl_cons, List.foldl_cons]
      simp only [pickStep]
      rw [foldl_pickStep_some, foldl_pickStep_some]
      have hm : combinePick x xs ∈ x :: xs := combinePick_mem x xs
      have hm2 : combinePick y ys ∈ y :: ys := combinePick_mem y ys
      have hm2x : combinePick y ys ∈ x :: xs := (hpf.mem_iff).mpr hm2
      have hmy : combinePick x xs ∈ y :: ys := (hpf.mem_iff).mp hm
      have hmax1 := combinePick_isMax x xs (combinePick y ys) hm2x
      have hmax2 := combinePick_isMax y ys (combinePick x xs) hmy
      have hkey := keyLe_antisymm hmax1 hmax2
      have hid : (combinePick y ys).id = (combinePick x xs).id :=
        congrArg (fun p : Nat × Nat × Nat => p.2.2) hkey
      have hmf : combinePick x xs ∈ rs.filter (fun r => r.bookId == b) := by
        rw [hl]; exact hm
      have hm2f : combinePick y ys ∈ rs.filter (fun r => r.bookId == b) := by
        rw [hl]; exact hm2x
      obtain ⟨hmrs, hmb⟩ := List.mem_filter.mp hmf
      obtain ⟨hm2rs, hm2b⟩ := List.mem_filter.mp hm2f
      have hmb2 : (combinePick x xs).bookId = b := by simpa using hmb
      have hm2b2 : (combinePick y ys).bookId = b := by simpa using hm2b
      exact congrArg some
        (hids (combinePick x xs) hmrs (combinePick y ys) hm2rs hmb2 hm2b2
          hid.symm)

/-- C2 witness: book 7 has two tied reservations with distinct ids 3 and
8; both orders of the list select the same reservation. -/
theorem latest_reservation_perm_invariant_witness :
    lookupBook
        (latestReservationByBook
          [{ id := 3, bookId := 7,
              status := ReservationStatus.PENDING_RESERVED,
              reservedAt := some 100, takenAt := none, returnedAt := none },
            { id := 8, bookId := 7,
              status := ReservationStatus.PENDING_RESERVED,
              reservedAt := some 100, takenAt := none,
              returnedAt := none }]) 7 =
      lookupBook
        (latestReservationByBook
          [{ id := 8, bookId := 7,
              status := ReservationStatus.PENDING_RESERVED,
              reservedAt := some 100, takenAt := none, returnedAt := none },
            { id := 3, bookId := 7,
              status := ReservationStatus.PENDING_RESERVED,
              reservedAt := some 100, takenAt := none,
              returnedAt := none }]) 7 :=
  latest_reservation_perm_invariant 7 _ _ (by decide) (by decide)

end ReservationCore
